import Mathlib

/-!
Verification development for the nyc_cabs ingestion pipeline.

The Python sources embedded here:
  * `src/assets/tier_1/ingest_trips.py`         (the tier_1 variant)
  * `src/nyc/assets/ingestion/ingest_trips_python.py` (the python variant)
  * `src/assets/raw/taxi_zone_geojson.py`       (geometry sidecar)

Modelling conventions:
  * A pandas DataFrame is modelled by its schema (ordered list of column
    labels) together with its row count; none of the verified properties
    inspects cell values.
  * Library calls that perform I/O or opaque parsing (requests.get,
    pd.read_parquet, datetime.strptime, datetime.fromisoformat,
    json.loads, shapely centroids) are taken as oracle parameters; the
    control flow around them is translated from the source.
  * Python functions that may raise are embedded with result type
    `Except String _`; `Except.error` models an uncaught exception.
-/

/-- Schema-and-cardinality model of a pandas DataFrame: ordered column
labels plus number of rows. -/
structure DF where
  cols : List String
  nrows : Nat
deriving DecidableEq, Repr

/-- pandas `df.empty`: true when any axis has length zero. -/
def dfEmpty (df : DF) : Bool :=
  df.nrows = 0 || df.cols.isEmpty

/-- pandas column assignment `df[c] = v` at schema level: an existing
label is overwritten in place, a new one is appended. -/
def addCol (cs : List String) (c : String) : List String :=
  if c ∈ cs then cs else cs ++ [c]

/-- Column union of `pd.concat` (sort=False): labels in order of first
appearance across the frames. -/
def concatCols (ls : List (List String)) : List String :=
  ls.foldl (fun acc cs => cs.foldl addCol acc) []

/-- `pd.concat(dfs, ignore_index=True)` at schema-and-cardinality level. -/
def concatDFs (dfs : List DF) : DF :=
  ⟨concatCols (dfs.map DF.cols), (dfs.map DF.nrows).sum⟩

/-- A Python `datetime.date` (the date part of a `datetime`): a valid
calendar date.  The month and day bounds are the invariants `datetime`
itself enforces; days-per-month refinement is irrelevant to the claims. -/
structure Date where
  year : Nat
  month : Nat
  day : Nat
  hm : 1 ≤ month ∧ month ≤ 12
  hd : 1 ≤ day ∧ day ≤ 31

/-- `datetime` comparison restricted to the date fields: lexicographic on
(year, month, day). -/
def Date.le (a b : Date) : Prop :=
  a.year < b.year ∨
    (a.year = b.year ∧ (a.month < b.month ∨ (a.month = b.month ∧ a.day ≤ b.day)))

instance (a b : Date) : Decidable (Date.le a b) :=
  decidable_of_iff
    (a.year < b.year ∨
      (a.year = b.year ∧ (a.month < b.month ∨ (a.month = b.month ∧ a.day ≤ b.day))))
    Iff.rfl

/-- Linear index of a calendar month: `12 * year + (month - 1)`. -/
def monthIdx (y m : Nat) : Nat := 12 * y + (m - 1)

/-- Inverse of `monthIdx`, recovering the (year, month) pair. -/
def idxToMonth (n : Nat) : Nat × Nat := (n / 12, n % 12 + 1)

/-- `monthIdx` on a (year, month) pair. -/
def mIdx (p : Nat × Nat) : Nat := 12 * p.1 + (p.2 - 1)

/-- tier_1 `generate_month_range` step: `current.replace(year=current.year+1,
month=1)` when December, else `current.replace(month=current.month+1)`.
The day field is carried over unchanged, exactly as `replace` does. -/
def nextMonthDate (c : Date) : Date :=
  if h : c.month = 12 then
    ⟨c.year + 1, 1, c.day, by omega, c.hd⟩
  else
    ⟨c.year, c.month + 1, c.day, by have := c.hm; omega, c.hd⟩

theorem nextMonthDate_idx (c : Date) :
    monthIdx (nextMonthDate c).year (nextMonthDate c).month =
      monthIdx c.year c.month + 1 := by
  have h := c.hm
  unfold nextMonthDate
  split <;> (dsimp only; unfold monthIdx; omega)

theorem nextMonthDate_day (c : Date) : (nextMonthDate c).day = c.day := by
  unfold nextMonthDate
  split <;> rfl

theorem date_le_monthIdx (a b : Date) (h : Date.le a b) :
    monthIdx a.year a.month ≤ monthIdx b.year b.month := by
  have ha := a.hm
  have hb := b.hm
  unfold Date.le at h
  unfold monthIdx
  omega

/-- The `while current <= end` loop of tier_1 `generate_month_range`:
emit `(current.year, current.month)` and step one month while the loop
guard holds. -/
def monthWalk (endD : Date) (cur : Date) : List (Nat × Nat) :=
  if h : Date.le cur endD then
    (cur.year, cur.month) :: monthWalk endD (nextMonthDate cur)
  else
    []
termination_by monthIdx endD.year endD.month + 1 - monthIdx cur.year cur.month
decreasing_by
  have h1 := date_le_monthIdx cur endD h
  have h2 := nextMonthDate_idx cur
  omega

/-- When the cursor sits on the first of a month, the loop guard compares
exactly the month indices (a first-of-month is never later than any valid
day of the same month). -/
theorem monthWalk_le_iff (cur endD : Date) (hd : cur.day = 1) :
    Date.le cur endD ↔
      monthIdx cur.year cur.month ≤ monthIdx endD.year endD.month := by
  have h1 := cur.hm
  have h2 := endD.hm
  have h3 := endD.hd
  unfold Date.le monthIdx
  omega

theorem idxToMonth_monthIdx (y m : Nat) (h : 1 ≤ m ∧ m ≤ 12) :
    idxToMonth (monthIdx y m) = (y, m) := by
  unfold idxToMonth monthIdx
  simp only [Prod.mk.injEq]
  omega

theorem mIdx_idxToMonth (n : Nat) : mIdx (idxToMonth n) = n := by
  unfold mIdx idxToMonth
  omega

/-- Closed form of the tier_1 month loop: starting from the first of a
month it enumerates consecutive month indices up to the end month. -/
theorem monthWalk_eq : ∀ (n : Nat) (endD cur : Date), cur.day = 1 →
    monthIdx endD.year endD.month + 1 - monthIdx cur.year cur.month = n →
    monthWalk endD cur =
      (List.range' (monthIdx cur.year cur.month) n).map idxToMonth := by
  intro n
  induction n with
  | zero =>
    intro endD cur hd hn
    rw [monthWalk, dif_neg]
    · simp
    · rw [monthWalk_le_iff cur endD hd]; omega
  | succ n ih =>
    intro endD cur hd hn
    rw [monthWalk, dif_pos]
    · rw [List.range'_succ, List.map_cons]
      congr 1
      · exact (idxToMonth_monthIdx cur.year cur.month cur.hm).symm
      · have hd2 : (nextMonthDate cur).day = 1 := by
          rw [nextMonthDate_day]; exact hd
        have hidx := nextMonthDate_idx cur
        rw [ih endD (nextMonthDate cur) hd2 (by omega), hidx]
    · rw [monthWalk_le_iff cur endD hd]; omega

/-- tier_1 `generate_month_range` (date level; `strptime` of the two
input strings is an oracle in `tier1_materialize`): start from
`start.replace(day=1)` and walk while `current <= end`. -/
def generate_month_range (start end_ : Date) : List (Nat × Nat) :=
  monthWalk end_ ⟨start.year, start.month, 1, start.hm, by omega⟩

theorem generate_month_range_eq (s e : Date) :
    generate_month_range s e =
      (List.range' (monthIdx s.year s.month)
        (monthIdx e.year e.month + 1 - monthIdx s.year s.month)).map idxToMonth := by
  unfold generate_month_range
  exact monthWalk_eq _ e _ rfl rfl

/-- A Python `datetime.datetime` as the python variant manipulates it:
a calendar date plus a time of day.  `tod` is seconds-since-midnight;
`datetime` tuples (hour, minute, second, microsecond) compare
lexicographically, which is order-isomorphic to this single field. -/
structure DateTime where
  year : Nat
  month : Nat
  day : Nat
  tod : Nat
  hm : 1 ≤ month ∧ month ≤ 12
  hd : 1 ≤ day ∧ day ≤ 31
  ht : tod < 86400

/-- Full `datetime` comparison: lexicographic on (year, month, day, time). -/
def DateTime.le (a b : DateTime) : Prop :=
  a.year < b.year ∨
    (a.year = b.year ∧ (a.month < b.month ∨
      (a.month = b.month ∧ (a.day < b.day ∨ (a.day = b.day ∧ a.tod ≤ b.tod)))))

instance (a b : DateTime) : Decidable (DateTime.le a b) :=
  decidable_of_iff
    (a.year < b.year ∨
      (a.year = b.year ∧ (a.month < b.month ∨
        (a.month = b.month ∧ (a.day < b.day ∨ (a.day = b.day ∧ a.tod ≤ b.tod))))))
    Iff.rfl

/-- `current += relativedelta(months=1)`: advance one calendar month,
keeping the day-of-month and the time of day. -/
def pyNextMonth (c : DateTime) : DateTime :=
  if h : c.month = 12 then
    ⟨c.year + 1, 1, c.day, c.tod, by omega, c.hd, c.ht⟩
  else
    ⟨c.year, c.month + 1, c.day, c.tod, by have := c.hm; omega, c.hd, c.ht⟩

/-- `dt.replace(day=1)`: move to the first of the month, keeping the
time of day (the python variant does NOT zero the time). -/
def firstOfMonthDT (t : DateTime) : DateTime :=
  ⟨t.year, t.month, 1, t.tod, t.hm, by omega, t.ht⟩

theorem pyNextMonth_idx (c : DateTime) :
    monthIdx (pyNextMonth c).year (pyNextMonth c).month =
      monthIdx c.year c.month + 1 := by
  have h := c.hm
  unfold pyNextMonth
  split <;> (dsimp only; unfold monthIdx; omega)

theorem pyNextMonth_day (c : DateTime) : (pyNextMonth c).day = c.day := by
  unfold pyNextMonth
  split <;> rfl

theorem pyNextMonth_tod (c : DateTime) : (pyNextMonth c).tod = c.tod := by
  unfold pyNextMonth
  split <;> rfl

theorem dt_le_monthIdx (a b : DateTime) (h : DateTime.le a b) :
    monthIdx a.year a.month ≤ monthIdx b.year b.month := by
  have ha := a.hm
  have hb := b.hm
  unfold DateTime.le at h
  unfold monthIdx
  omega

/-- The `while current <= end_month` loop of the python variant's
materialize: both sides are full datetimes, so the time of day takes
part in the comparison. -/
def pyMonthWalk (endM : DateTime) (cur : DateTime) : List (Nat × Nat) :=
  if h : DateTime.le cur endM then
    (cur.year, cur.month) :: pyMonthWalk endM (pyNextMonth cur)
  else
    []
termination_by monthIdx endM.year endM.month + 1 - monthIdx cur.year cur.month
decreasing_by
  have h1 := dt_le_monthIdx cur endM h
  have h2 := pyNextMonth_idx cur
  omega

/-- With both cursor and end on day 1, the guard compares month indices
and, on the same month, the times of day. -/
theorem pyMonthWalk_le_iff (cur endM : DateTime) (hc : cur.day = 1)
    (he : endM.day = 1) :
    DateTime.le cur endM ↔
      (monthIdx cur.year cur.month < monthIdx endM.year endM.month ∨
        (monthIdx cur.year cur.month = monthIdx endM.year endM.month ∧
          cur.tod ≤ endM.tod)) := by
  have h1 := cur.hm
  have h2 := endM.hm
  unfold DateTime.le monthIdx
  omega

/-- Closed form of the python month loop: it enumerates the months from
the cursor month through the end month, except that the end month itself
is kept only when the cursor's time of day is not later than the end's. -/
theorem pyMonthWalk_eq : ∀ (n : Nat) (endM cur : DateTime), cur.day = 1 →
    endM.day = 1 →
    monthIdx endM.year endM.month + 1 - monthIdx cur.year cur.month = n →
    pyMonthWalk endM cur =
      (List.range' (monthIdx cur.year cur.month)
        ((if cur.tod ≤ endM.tod then monthIdx endM.year endM.month + 1
          else monthIdx endM.year endM.month)
            - monthIdx cur.year cur.month)).map idxToMonth := by
  intro n
  induction n with
  | zero =>
    intro endM cur hc he hn
    rw [pyMonthWalk, dif_neg]
    · have : (if cur.tod ≤ endM.tod then monthIdx endM.year endM.month + 1
          else monthIdx endM.year endM.month)
            - monthIdx cur.year cur.month = 0 := by
        split <;> omega
      rw [this]
      simp
    · rw [pyMonthWalk_le_iff cur endM hc he]; omega
  | succ n ih =>
    intro endM cur hc he hn
    by_cases hcase : monthIdx cur.year cur.month < monthIdx endM.year endM.month ∨
        (monthIdx cur.year cur.month = monthIdx endM.year endM.month ∧
          cur.tod ≤ endM.tod)
    · rw [pyMonthWalk, dif_pos ((pyMonthWalk_le_iff cur endM hc he).mpr hcase)]
      have hc2 : (pyNextMonth cur).day = 1 := by rw [pyNextMonth_day]; exact hc
      have hidx := pyNextMonth_idx cur
      have htod := pyNextMonth_tod cur
      rw [ih endM (pyNextMonth cur) hc2 he (by omega), hidx, htod]
      have hcnt : (if cur.tod ≤ endM.tod then monthIdx endM.year endM.month + 1
          else monthIdx endM.year endM.month) - monthIdx cur.year cur.month =
        ((if cur.tod ≤ endM.tod then monthIdx endM.year endM.month + 1
          else monthIdx endM.year endM.month)
            - (monthIdx cur.year cur.month + 1)) + 1 := by
        split <;> omega
      rw [hcnt, List.range'_succ, List.map_cons]
      congr 1
      exact (idxToMonth_monthIdx cur.year cur.month cur.hm).symm
    · rw [pyMonthWalk, dif_neg]
      · have : (if cur.tod ≤ endM.tod then monthIdx endM.year endM.month + 1
            else monthIdx endM.year endM.month)
              - monthIdx cur.year cur.month = 0 := by
          split <;> omega
        rw [this]
        simp
      · rw [pyMonthWalk_le_iff cur endM hc he]; exact hcase

/-- The month enumeration of the python variant's materialize (lines
83-89 of the source): `current = start.replace(day=1)`,
`end_month = end.replace(day=1)`, walk while `current <= end_month`. -/
def python_month_range (s e : DateTime) : List (Nat × Nat) :=
  pyMonthWalk (firstOfMonthDT e) (firstOfMonthDT s)

theorem python_month_range_eq (s e : DateTime) :
    python_month_range s e =
      (List.range' (monthIdx s.year s.month)
        ((if s.tod ≤ e.tod then monthIdx e.year e.month + 1
          else monthIdx e.year e.month) - monthIdx s.year s.month)).map idxToMonth := by
  unfold python_month_range
  exact pyMonthWalk_eq _ (firstOfMonthDT e) (firstOfMonthDT s) rfl rfl rfl

/-- Consecutive-successor chain over `List.range'`. -/
theorem chain'_succ_range' (s : Nat) : ∀ n : Nat,
    List.Chain' (fun a b => a + 1 = b) (List.range' s n) := by
  intro n
  induction n generalizing s with
  | zero => simp
  | succ n ih =>
    cases n with
    | zero => simp
    | succ m =>
      rw [List.range'_succ, List.range'_succ, List.chain'_cons]
      refine ⟨rfl, ?_⟩
      rw [← List.range'_succ]
      exact ih (s + 1)

/-- A calendar date viewed as the `datetime` parsed from a date-only ISO
string: time of day zero. -/
def atMidnight (d : Date) : DateTime :=
  ⟨d.year, d.month, d.day, 0, d.hm, d.hd, by omega⟩

/-- C1: for valid calendar dates start ≤ end, the tier_1
`generate_month_range` and the month loop of the python variant agree,
and the common enumeration is strictly increasing with consecutive month
indices (no gaps, no duplicates), starts at the month of start, and ends
at the month of end. -/
theorem month_enumeration_spec (s e : Date) (hle : Date.le s e) :
    python_month_range (atMidnight s) (atMidnight e) = generate_month_range s e ∧
    (generate_month_range s e).head? = some (s.year, s.month) ∧
    (generate_month_range s e).getLast? = some (e.year, e.month) ∧
    List.Chain' (fun a b => mIdx a + 1 = mIdx b) (generate_month_range s e) ∧
    List.Pairwise (fun a b => mIdx a < mIdx b) (generate_month_range s e) := by
  have hidx := date_le_monthIdx s e hle
  refine ⟨?_, ?_, ?_, ?_, ?_⟩
  · rw [python_month_range_eq, generate_month_range_eq]
    simp [atMidnight]
  · rw [generate_month_range_eq, List.head?_map, List.head?_range']
    rw [if_neg (by omega)]
    simp only [Option.map_some']
    rw [idxToMonth_monthIdx _ _ s.hm]
  · rw [generate_month_range_eq, List.getLast?_map, List.getLast?_range']
    rw [if_neg (by omega)]
    simp only [Option.map_some']
    have h2 : monthIdx s.year s.month +
        (monthIdx e.year e.month + 1 - monthIdx s.year s.month) - 1 =
        monthIdx e.year e.month := by omega
    rw [h2, idxToMonth_monthIdx _ _ e.hm]
  · rw [generate_month_range_eq, List.chain'_map]
    have h3 : ∀ a b : Nat, (a + 1 = b) →
        mIdx (idxToMonth a) + 1 = mIdx (idxToMonth b) := by
      intro a b hab
      rw [mIdx_idxToMonth, mIdx_idxToMonth]
      exact hab
    exact List.Chain'.imp h3 (chain'_succ_range' _ _)
  · rw [generate_month_range_eq, List.pairwise_map]
    have h4 := List.pairwise_lt_range' (monthIdx s.year s.month)
      (monthIdx e.year e.month + 1 - monthIdx s.year s.month)
    refine List.Pairwise.imp ?_ h4
    intro a b hab
    rw [mIdx_idxToMonth, mIdx_idxToMonth]
    exact hab

def dJan15 : Date := ⟨2022, 1, 15, by decide, by decide⟩

def dMar10 : Date := ⟨2022, 3, 10, by decide, by decide⟩

/-- Witness for C1 at the concrete interval 2022-01-15 .. 2022-03-10. -/
theorem month_enumeration_spec_witness :
    Date.le dJan15 dMar10 ∧
    (python_month_range (atMidnight dJan15) (atMidnight dMar10) =
        generate_month_range dJan15 dMar10 ∧
      (generate_month_range dJan15 dMar10).head? = some (dJan15.year, dJan15.month) ∧
      (generate_month_range dJan15 dMar10).getLast? = some (dMar10.year, dMar10.month) ∧
      List.Chain' (fun a b => mIdx a + 1 = mIdx b) (generate_month_range dJan15 dMar10) ∧
      List.Pairwise (fun a b => mIdx a < mIdx b) (generate_month_range dJan15 dMar10)) :=
  ⟨by decide, month_enumeration_spec dJan15 dMar10 (by decide)⟩

def dJan20 : Date := ⟨2022, 1, 20, by decide, by decide⟩

def dJan10 : Date := ⟨2022, 1, 10, by decide, by decide⟩

/-- C2 counterexample: for start 2022-01-20 and end 2022-01-10 the start
is strictly after the end, yet BOTH ingestion variants enumerate the
partition (2022, 1) instead of the empty sequence. -/
theorem start_after_end_not_empty :
    ¬ Date.le dJan20 dJan10 ∧
    generate_month_range dJan20 dJan10 = [(2022, 1)] ∧
    python_month_range (atMidnight dJan20) (atMidnight dJan10) = [(2022, 1)] ∧
    generate_month_range dJan20 dJan10 ≠ [] := by
  refine ⟨by decide, ?_, ?_, ?_⟩
  · rw [generate_month_range_eq]; decide
  · rw [python_month_range_eq]; decide
  · rw [generate_month_range_eq]; decide

/-- C2 amended: for valid calendar dates with start strictly after end,
both variants return the empty sequence when start and end lie in
different calendar months, but return the single partition of that month
when they lie in the same calendar month. -/
theorem start_after_end_month_range (s e : Date) (hgt : ¬ Date.le s e) :
    generate_month_range s e =
      (if s.year = e.year ∧ s.month = e.month then [(s.year, s.month)] else []) ∧
    python_month_range (atMidnight s) (atMidnight e) =
      (if s.year = e.year ∧ s.month = e.month then [(s.year, s.month)] else []) := by
  have hs := s.hm
  have he := e.hm
  unfold Date.le at hgt
  have heq : python_month_range (atMidnight s) (atMidnight e) =
      generate_month_range s e := by
    rw [python_month_range_eq, generate_month_range_eq]
    simp [atMidnight]
  rw [heq]
  refine ⟨?_, ?_⟩ <;> rw [generate_month_range_eq]
  all_goals
    by_cases hsame : s.year = e.year ∧ s.month = e.month
  all_goals first
  | (rw [if_pos hsame]
     have h1 : monthIdx e.year e.month + 1 - monthIdx s.year s.month = 1 := by
       unfold monthIdx; omega
     rw [h1, List.range'_one, List.map_singleton, idxToMonth_monthIdx _ _ s.hm])
  | (rw [if_neg hsame]
     have h1 : monthIdx e.year e.month + 1 - monthIdx s.year s.month = 0 := by
       unfold monthIdx; omega
     rw [h1]
     simp)

def dMay05 : Date := ⟨2022, 5, 5, by decide, by decide⟩

def dFeb10 : Date := ⟨2022, 2, 10, by decide, by decide⟩

/-- Witness for the amended C2 at start 2022-05-05, end 2022-02-10. -/
theorem start_after_end_month_range_witness :
    ¬ Date.le dMay05 dFeb10 ∧
    (generate_month_range dMay05 dFeb10 =
        (if dMay05.year = dFeb10.year ∧ dMay05.month = dFeb10.month then
          [(dMay05.year, dMay05.month)] else []) ∧
      python_month_range (atMidnight dMay05) (atMidnight dFeb10) =
        (if dMay05.year = dFeb10.year ∧ dMay05.month = dFeb10.month then
          [(dMay05.year, dMay05.month)] else [])) :=
  ⟨by decide, start_after_end_month_range dMay05 dFeb10 (by decide)⟩

def dtJan15mid : DateTime := ⟨2022, 1, 15, 0, by decide, by decide, by decide⟩

def dtMar10mid : DateTime := ⟨2022, 3, 10, 0, by decide, by decide, by decide⟩

def dtJan15late : DateTime := ⟨2022, 1, 15, 82800, by decide, by decide, by decide⟩

def dtMar10early : DateTime := ⟨2022, 3, 10, 3600, by decide, by decide, by decide⟩

/-- C7 (code-bug evidence): the two invocation pairs below differ only in
time of day (2022-01-15T23:00:00 / 2022-03-10T01:00:00 versus the same
dates at midnight), yet the python variant's month loop drops the final
(2022, 3) partition for the timed pair, because `replace(day=1)` keeps
the time of day and the loop guard compares full datetimes. -/
theorem python_month_range_time_sensitive :
    dtJan15late.year = dtJan15mid.year ∧ dtJan15late.month = dtJan15mid.month ∧
    dtJan15late.day = dtJan15mid.day ∧
    dtMar10early.year = dtMar10mid.year ∧ dtMar10early.month = dtMar10mid.month ∧
    dtMar10early.day = dtMar10mid.day ∧
    python_month_range dtJan15mid dtMar10mid = [(2022, 1), (2022, 2), (2022, 3)] ∧
    python_month_range dtJan15late dtMar10early = [(2022, 1), (2022, 2)] ∧
    python_month_range dtJan15late dtMar10early ≠
      python_month_range dtJan15mid dtMar10mid := by
  refine ⟨rfl, rfl, rfl, rfl, rfl, rfl, ?_, ?_, ?_⟩
  · rw [python_month_range_eq]; decide
  · rw [python_month_range_eq]; decide
  · rw [python_month_range_eq, python_month_range_eq]; decide

/-- The `column_mapping` dict of the python variant, as the label map
that `df.rename(columns=...)` applies to each column label (labels not
in the dict are unchanged; restricting the dict to labels present in the
frame, as the source does, leaves the label map unchanged). -/
def mapCol (c : String) : String :=
  if c = "vendor_id" then "vendorid"
  else if c = "vendorID" then "vendorid"
  else if c = "VendorID" then "vendorid"
  else if c = "ratecode_id" then "ratecodeid"
  else if c = "ratecodeID" then "ratecodeid"
  else if c = "RatecodeID" then "ratecodeid"
  else if c = "pu_location_id" then "pulocationid"
  else if c = "PULocationID" then "pulocationid"
  else if c = "do_location_id" then "dolocationid"
  else if c = "DOLocationID" then "dolocationid"
  else if c = "payment_type" then "payment_type"
  else if c = "Payment_type" then "payment_type"
  else c

/-- `df.rename(columns=column_mapping)` at schema level. -/
def rename_columns (cols : List String) : List String :=
  cols.map mapCol

/-- Per-partition normalization of the python variant: rename the known
column spellings, then assign the `taxi_type` provenance column. -/
def pyNormalize (df : DF) (tt : String) : DF :=
  ⟨addCol (rename_columns df.cols) "taxi_type", df.nrows⟩

/-- Every value of the rename map is either the input itself or one of
the five canonical target spellings. -/
theorem mapCol_image (c : String) :
    mapCol c = c ∨ mapCol c = "vendorid" ∨ mapCol c = "ratecodeid" ∨
      mapCol c = "pulocationid" ∨ mapCol c = "dolocationid" ∨
      mapCol c = "payment_type" := by
  by_cases h1 : c = "vendor_id"
  · subst h1; simp [mapCol]
  by_cases h2 : c = "vendorID"
  · subst h2; simp [mapCol]
  by_cases h3 : c = "VendorID"
  · subst h3; simp [mapCol]
  by_cases h4 : c = "ratecode_id"
  · subst h4; simp [mapCol]
  by_cases h5 : c = "ratecodeID"
  · subst h5; simp [mapCol]
  by_cases h6 : c = "RatecodeID"
  · subst h6; simp [mapCol]
  by_cases h7 : c = "pu_location_id"
  · subst h7; simp [mapCol]
  by_cases h8 : c = "PULocationID"
  · subst h8; simp [mapCol]
  by_cases h9 : c = "do_location_id"
  · subst h9; simp [mapCol]
  by_cases h10 : c = "DOLocationID"
  · subst h10; simp [mapCol]
  by_cases h11 : c = "payment_type"
  · subst h11; simp [mapCol]
  by_cases h12 : c = "Payment_type"
  · subst h12; simp [mapCol]
  left
  unfold mapCol
  rw [if_neg h1, if_neg h2, if_neg h3, if_neg h4, if_neg h5, if_neg h6,
    if_neg h7, if_neg h8, if_neg h9, if_neg h10, if_neg h11, if_neg h12]

theorem mapCol_fix_vendorid : mapCol "vendorid" = "vendorid" := by simp [mapCol]

theorem mapCol_fix_ratecodeid : mapCol "ratecodeid" = "ratecodeid" := by simp [mapCol]

theorem mapCol_fix_pulocationid : mapCol "pulocationid" = "pulocationid" := by simp [mapCol]

theorem mapCol_fix_dolocationid : mapCol "dolocationid" = "dolocationid" := by simp [mapCol]

theorem mapCol_fix_payment_type : mapCol "payment_type" = "payment_type" := by simp [mapCol]

theorem mapCol_taxi_type : mapCol "taxi_type" = "taxi_type" := by simp [mapCol]

theorem mapCol_idem (c : String) : mapCol (mapCol c) = mapCol c := by
  rcases mapCol_image c with h | h | h | h | h | h
  · conv_lhs => rw [h]
  · rw [h]; exact mapCol_fix_vendorid
  · rw [h]; exact mapCol_fix_ratecodeid
  · rw [h]; exact mapCol_fix_pulocationid
  · rw [h]; exact mapCol_fix_dolocationid
  · rw [h]; exact mapCol_fix_payment_type

theorem rename_columns_idem (cols : List String) :
    rename_columns (rename_columns cols) = rename_columns cols := by
  unfold rename_columns
  rw [List.map_map]
  apply List.map_congr_left
  intro a _
  exact mapCol_idem a

/-- C4: normalization is idempotent — both the full per-partition
normalizer (rename plus the `taxi_type` provenance column) and the bare
column-rename map are no-ops on already-normalized input. -/
theorem normalize_idempotent (df : DF) (tt : String) :
    pyNormalize (pyNormalize df tt) tt = pyNormalize df tt ∧
    rename_columns (rename_columns df.cols) = rename_columns df.cols := by
  refine ⟨?_, rename_columns_idem df.cols⟩
  unfold pyNormalize
  simp only [DF.mk.injEq, and_true]
  unfold addCol
  by_cases h : "taxi_type" ∈ rename_columns df.cols
  · rw [if_pos h]
    rw [rename_columns_idem]
    rw [if_pos h]
  · rw [if_neg h]
    have h2 : rename_columns (rename_columns df.cols ++ ["taxi_type"]) =
        rename_columns df.cols ++ ["taxi_type"] := by
      unfold rename_columns
      rw [List.map_append]
      have h3 := rename_columns_idem df.cols
      unfold rename_columns at h3
      rw [h3, List.map_singleton, mapCol_taxi_type]
    rw [h2]
    rw [if_pos (by simp)]

/-- Outcome of `requests.get(url, timeout=...)`: either the call raised
(timeout, connection failure, ...) or it returned a response with a
status code and a body. -/
inductive HttpOutcome where
  | raised (msg : String)
  | response (status : Nat) (content : String)
deriving DecidableEq, Repr

/-- The try-block body of tier_1 `download_parquet_file`:
`requests.get` (may raise), `raise_for_status` (raises HTTPError on a
4xx or 5xx status), `pd.read_parquet` (may raise; modelled by the
`pparse` oracle). -/
def download_body (o : HttpOutcome) (pparse : String → Except String DF) :
    Except String DF :=
  match o with
  | HttpOutcome.raised msg => Except.error msg
  | HttpOutcome.response status content =>
    if 400 ≤ status ∧ status ≤ 599 then Except.error "HTTPError"
    else pparse content

/-- tier_1 `download_parquet_file`: run the try-block body; on any
exception return an empty DataFrame instead of propagating. -/
def download_parquet_file (http : String → HttpOutcome)
    (pparse : String → Except String DF) (url : String) : DF :=
  match download_body (http url) pparse with
  | Except.ok df => df
  | Except.error _ => ⟨[], 0⟩

/-- C9: `download_parquet_file` is total with respect to errors — for
every URL, whenever the transport/parse body raises it returns the empty
DataFrame to its caller instead of propagating, and whenever the body
succeeds it returns the parsed table unchanged. -/
theorem download_parquet_file_total (http : String → HttpOutcome)
    (pparse : String → Except String DF) (url : String) :
    (∀ msg, download_body (http url) pparse = Except.error msg →
      download_parquet_file http pparse url = ⟨[], 0⟩) ∧
    (∀ df, download_body (http url) pparse = Except.ok df →
      download_parquet_file http pparse url = df) := by
  unfold download_parquet_file
  constructor
  · intro msg hmsg
    rw [hmsg]
  · intro df hdf
    rw [hdf]

/-- Witness for C9: a raising transport yields the empty DataFrame, a
successful transport and parse yields the parsed table. -/
theorem download_parquet_file_total_witness :
    download_parquet_file (fun _ => HttpOutcome.raised "timeout")
      (fun _ => Except.error "parse error") "u" = ⟨[], 0⟩ ∧
    download_parquet_file (fun _ => HttpOutcome.response 200 "bytes")
      (fun _ => Except.ok ⟨["VendorID"], 5⟩) "u" = ⟨["VendorID"], 5⟩ := by
  constructor
  · exact (download_parquet_file_total _ _ _).1 "timeout" rfl
  · refine (download_parquet_file_total _ _ _).2 _ ?_
    dsimp only [download_body]
    rw [if_neg (by omega)]

/-- URL construction shared by both variants:
`{base}/{category}_tripdata_{year}-{month:02d}.parquet`. -/
def trip_data_url (tt : String) (y m : Nat) : String :=
  "https://d37ci6vzurychx.cloudfront.net/trip-data/" ++ tt ++ "_tripdata_" ++
    toString y ++ "-" ++ (if m < 10 then "0" ++ toString m else toString m) ++
    ".parquet"

/-- tier_1 provenance step: `df["taxi_type"] = taxi_type` then
`df["extracted_at"] = datetime.now()` (column names preserved, no
rename in this variant). -/
def tier1_add_provenance (df : DF) (tt : String) : DF :=
  ⟨addCol (addCol df.cols "taxi_type") "extracted_at", df.nrows⟩

/-- The nested download loop of tier_1 materialize: for each taxi type
and each month, fetch; keep the frame (with provenance columns added)
only when it is non-empty, since an empty frame is also what a failed
download returns. -/
def tier1_collect (taxiTypes : List String) (months : List (Nat × Nat))
    (fetch : String → DF) : List DF :=
  taxiTypes.flatMap fun tt =>
    months.filterMap fun ym =>
      let df := fetch (trip_data_url tt ym.1 ym.2)
      if dfEmpty df then none else some (tier1_add_provenance df tt)

/-- C8: in tier_1, a download that succeeds with a zero-row table is
indistinguishable from a failed download — such a frame is empty in the
pandas sense, the loop skips it without adding provenance columns, and
replacing it by the failed-download result (the fully empty frame)
leaves the collected list unchanged. -/
theorem tier1_zero_row_indistinguishable (taxiTypes : List String)
    (months : List (Nat × Nat)) (f : String → DF) (u : String)
    (cols : List String) (hf : f u = ⟨cols, 0⟩) :
    dfEmpty (f u) = true ∧
    tier1_collect taxiTypes months f =
      tier1_collect taxiTypes months (fun v => if v = u then ⟨[], 0⟩ else f v) := by
  constructor
  · rw [hf]; simp [dfEmpty]
  · unfold tier1_collect
    apply List.flatMap_congr
    intro tt _
    apply List.filterMap_congr
    intro ym _
    by_cases hu : trip_data_url tt ym.1 ym.2 = u
    · dsimp only
      rw [hu, hf, if_pos rfl]
      simp [dfEmpty]
    · dsimp only
      rw [if_neg hu]

/-- Witness for C8: one taxi type, one month, a fetch returning a
zero-row frame with a column versus the failed-download empty frame. -/
theorem tier1_zero_row_indistinguishable_witness :
    dfEmpty ((fun _ : String => DF.mk ["VendorID"] 0) "u") = true ∧
    tier1_collect ["yellow"] [(2022, 1)] (fun _ => DF.mk ["VendorID"] 0) =
      tier1_collect ["yellow"] [(2022, 1)]
        (fun v => if v = "u" then ⟨[], 0⟩ else (fun _ : String => DF.mk ["VendorID"] 0) v) :=
  tier1_zero_row_indistinguishable ["yellow"] [(2022, 1)]
    (fun _ => DF.mk ["VendorID"] 0) "u" ["VendorID"] rfl

/-- Python truthiness of an optional string: `None` and the empty string
are falsy. -/
def strTruthy : Option String → Bool
  | none => false
  | some s => s ≠ ""

/-- Python `a or b` on optional strings: return `a` when truthy, else `b`. -/
def pyOr (a b : Option String) : Option String :=
  if strTruthy a then a else b

/-- The start-date probe of the python variant (line 63):
`start_date or os.environ.get('START_DATE') or os.environ.get('start_date')
or kwargs.get('start_date') or kwargs.get('START_DATE')`. -/
def resolve_start (start_date : Option String) (env kw : String → Option String) :
    Option String :=
  pyOr (pyOr (pyOr (pyOr start_date (env "START_DATE")) (env "start_date"))
    (kw "start_date")) (kw "START_DATE")

/-- The end-date probe of the python variant (line 64). -/
def resolve_end (end_date : Option String) (env kw : String → Option String) :
    Option String :=
  pyOr (pyOr (pyOr (pyOr end_date (env "END_DATE")) (env "end_date"))
    (kw "end_date")) (kw "END_DATE")

/-- The taxi-type probe of the python variant (line 65):
`os.environ.get('taxi_type') or kwargs.get('taxi_type', 'yellow')`. -/
def pyTaxiType (env kw : String → Option String) : String :=
  match env "taxi_type" with
  | some s => if s ≠ "" then s else (kw "taxi_type").getD "yellow"
  | none => (kw "taxi_type").getD "yellow"

/-- The date-string cleanup of the python variant (lines 76-80):
replace a Z suffix by an offset, turn the T separator into a space, and
drop a fractional-seconds part.  The subsequent `fromisoformat` call is
the `parse` oracle of `python_materialize`. -/
def cleanDateStr (s : String) : String :=
  let s1 := if s.contains 'Z' then s.replace "Z" "+00:00" else s
  ((s1.replace "T" " ").splitOn ".").headD ""

/-- The month download loop of the python variant: for each month,
fetch and parse (one try-block covers both, plus rename and provenance,
which cannot raise); on any exception the month is skipped via
`continue`. -/
def py_collect (tt : String) (months : List (Nat × Nat))
    (fetchParse : String → Except String DF) : List DF :=
  months.filterMap fun ym =>
    match fetchParse (trip_data_url tt ym.1 ym.2) with
    | Except.ok df => some (pyNormalize df tt)
    | Except.error _ => none

/-- The python variant materialize: probe the date sources, raise
ValueError when either probe is falsy, parse both dates, enumerate the
months, fetch-and-normalize each month (failures skipped), and combine;
when nothing succeeded return an empty frame with the `taxi_type`
column. -/
def python_materialize (start_date end_date : Option String)
    (env kw : String → Option String)
    (parse : String → Except String DateTime)
    (fetchParse : String → Except String DF) : Except String DF :=
  let sdStr := resolve_start start_date env kw
  let edStr := resolve_end end_date env kw
  let tt := pyTaxiType env kw
  match sdStr, edStr with
  | some sv, some ev =>
    if sv = "" ∨ ev = "" then
      Except.error "ValueError: start_date and end_date must be provided"
    else
      match parse (cleanDateStr sv), parse (cleanDateStr ev) with
      | Except.ok sdt, Except.ok edt =>
        let months := python_month_range sdt edt
        let dfs := py_collect tt months fetchParse
        if dfs.isEmpty then Except.ok ⟨["taxi_type"], 0⟩
        else Except.ok (concatDFs dfs)
      | Except.error e, _ => Except.error e
      | _, Except.error e => Except.error e
  | _, _ => Except.error "ValueError: start_date and end_date must be provided"

/-- The tier_1 materialize: read the date range from the environment
with built-in defaults, read taxi types from BRUIN_VARS (default
yellow), enumerate the months, download each partition, keep the
non-empty frames with provenance columns, and combine; with no frames
kept, return a fully empty DataFrame. -/
def tier1_materialize (env : String → Option String)
    (varsTaxiTypes : String → Except String (List String))
    (strptime : String → Except String Date)
    (http : String → HttpOutcome)
    (pparse : String → Except String DF) : Except String DF :=
  let start_str := (env "BRUIN_START_DATE").getD "2022-01-01"
  let end_str := (env "BRUIN_END_DATE").getD "2022-01-31"
  match (match env "BRUIN_VARS" with
          | some v => varsTaxiTypes v
          | none => Except.ok ["yellow"]) with
  | Except.error e => Except.error e
  | Except.ok taxi_types =>
    match strptime start_str, strptime end_str with
    | Except.ok s, Except.ok e =>
      let months := generate_month_range s e
      let dfs := tier1_collect taxi_types months
        (fun url => download_parquet_file http pparse url)
      if dfs.isEmpty then Except.ok ⟨[], 0⟩
      else Except.ok (concatDFs dfs)
    | Except.error e, _ => Except.error e
    | _, Except.error e => Except.error e

/-- C6 counterexample inputs: environment supplies START_DATE while the
keyword arguments supply start_date, with different values. -/
def envStartOnly : String → Option String :=
  fun k => if k = "START_DATE" then some "2023-05-01" else none

def kwStartOnly : String → Option String :=
  fun k => if k = "start_date" then some "2024-06-01" else none

/-- C6 counterexample: with no direct argument, an environment value and
a keyword value both present, the code resolves to the ENVIRONMENT
value, not the keyword value the claimed precedence (argument > keyword
> environment) would select. -/
theorem resolve_env_beats_kwarg :
    resolve_start none envStartOnly kwStartOnly = some "2023-05-01" ∧
    (some "2023-05-01" : Option String) ≠ some "2024-06-01" := by
  constructor
  · simp [resolve_start, pyOr, strTruthy, envStartOnly, kwStartOnly]
  · simp

/-- C6 amended: the actual precedence of the date probes is direct
argument first, then the environment variables (upper-case then
lower-case name), then the keyword arguments (lower-case then upper-case
name); the first truthy source wins, and with no truthy source the last
probe's value is returned. -/
theorem resolve_precedence (a : Option String) (env kw : String → Option String) :
    resolve_start a env kw =
      ([a, env "START_DATE", env "start_date", kw "start_date"].find? strTruthy).getD
        (kw "START_DATE") ∧
    resolve_end a env kw =
      ([a, env "END_DATE", env "end_date", kw "end_date"].find? strTruthy).getD
        (kw "END_DATE") := by
  constructor
  · unfold resolve_start
    cases h1 : strTruthy a <;> cases h2 : strTruthy (env "START_DATE") <;>
      cases h3 : strTruthy (env "start_date") <;> cases h4 : strTruthy (kw "start_date") <;>
        simp [pyOr, List.find?, h1, h2, h3, h4]
  · unfold resolve_end
    cases h1 : strTruthy a <;> cases h2 : strTruthy (env "END_DATE") <;>
      cases h3 : strTruthy (env "end_date") <;> cases h4 : strTruthy (kw "end_date") <;>
        simp [pyOr, List.find?, h1, h2, h3, h4]

theorem pyOr_falsy (a b : Option String) (h : strTruthy a = false) :
    pyOr a b = b := by
  unfold pyOr
  simp [h]

theorem strTruthy_false_cases (x : Option String) (h : strTruthy x = false) :
    x = none ∨ x = some "" := by
  cases x with
  | none => exact Or.inl rfl
  | some s =>
    right
    unfold strTruthy at h
    simp at h
    rw [h]

theorem resolve_start_all_falsy (sd : Option String) (env kw : String → Option String)
    (ha : strTruthy sd = false) (h1 : strTruthy (env "START_DATE") = false)
    (h2 : strTruthy (env "start_date") = false)
    (h3 : strTruthy (kw "start_date") = false) :
    resolve_start sd env kw = kw "START_DATE" := by
  unfold resolve_start
  rw [pyOr_falsy _ _ ha, pyOr_falsy _ _ h1, pyOr_falsy _ _ h2, pyOr_falsy _ _ h3]

/-- With an unresolvable start date the python materialize raises
ValueError before any further work. -/
theorem python_materialize_error_of_falsy (sd ed : Option String)
    (env kw : String → Option String) (parse : String → Except String DateTime)
    (fp : String → Except String DF)
    (ha : strTruthy sd = false) (h1 : strTruthy (env "START_DATE") = false)
    (h2 : strTruthy (env "start_date") = false)
    (h3 : strTruthy (kw "start_date") = false)
    (h4 : strTruthy (kw "START_DATE") = false) :
    python_materialize sd ed env kw parse fp =
      Except.error "ValueError: start_date and end_date must be provided" := by
  unfold python_materialize
  rw [resolve_start_all_falsy sd env kw ha h1 h2 h3]
  rcases strTruthy_false_cases _ h4 with h | h <;> rw [h]
  cases resolve_end ed env kw with
  | none => rfl
  | some ev =>
    dsimp only
    rw [if_pos (Or.inl rfl)]

/-- C5 amended: with no date range resolvable, the python variant fails
immediately with a ValueError, but the tier_1 variant does NOT fail — it
silently substitutes the built-in default range 2022-01-01..2022-01-31
and proceeds to a normal (Except.ok) result. -/
theorem missing_date_range_behavior
    (env kw : String → Option String)
    (parse : String → Except String DateTime) (fp : String → Except String DF)
    (h1 : strTruthy (env "START_DATE") = false)
    (h2 : strTruthy (env "start_date") = false)
    (h3 : strTruthy (kw "start_date") = false)
    (h4 : strTruthy (kw "START_DATE") = false)
    (env2 : String → Option String) (varsT : String → Except String (List String))
    (strp : String → Except String Date) (http : String → HttpOutcome)
    (pp : String → Except String DF) (s e : Date)
    (he1 : env2 "BRUIN_START_DATE" = none) (he2 : env2 "BRUIN_END_DATE" = none)
    (he3 : env2 "BRUIN_VARS" = none)
    (hs : strp "2022-01-01" = Except.ok s) (he : strp "2022-01-31" = Except.ok e) :
    (∃ msg, python_materialize none none env kw parse fp = Except.error msg) ∧
    (∃ df, tier1_materialize env2 varsT strp http pp = Except.ok df) := by
  constructor
  · exact ⟨_, python_materialize_error_of_falsy none none env kw parse fp rfl h1 h2 h3 h4⟩
  · unfold tier1_materialize
    rw [he1, he2, he3]
    simp only [Option.getD_none]
    rw [hs, he]
    dsimp only
    split
    · exact ⟨_, rfl⟩
    · exact ⟨_, rfl⟩

def noEnv : String → Option String := fun _ => none

def d20220101 : Date := ⟨2022, 1, 1, by decide, by decide⟩

def d20220131 : Date := ⟨2022, 1, 31, by decide, by decide⟩

def constStrptime : String → Except String Date := fun _ => Except.ok d20220101

def allFailHttp : String → HttpOutcome := fun _ => HttpOutcome.raised "connection error"

def noParse : String → Except String DF := fun _ => Except.error "parse error"

def noVars : String → Except String (List String) := fun _ => Except.error "json error"

/-- Witness for the amended C5 at concrete oracles. -/
theorem missing_date_range_behavior_witness :
    (∃ msg, python_materialize none none noEnv noEnv
      (fun _ => Except.ok dtJan15mid) noParse = Except.error msg) ∧
    (∃ df, tier1_materialize noEnv noVars constStrptime allFailHttp noParse =
      Except.ok df) :=
  missing_date_range_behavior noEnv noEnv (fun _ => Except.ok dtJan15mid) noParse
    rfl rfl rfl rfl noEnv noVars constStrptime allFailHttp noParse
    d20220101 d20220101 rfl rfl rfl rfl rfl

/-- An strptime oracle behaving like the real one on the two default
date strings of tier_1. -/
def strptimeDefaults : String → Except String Date :=
  fun s =>
    if s = "2022-01-01" then Except.ok d20220101
    else if s = "2022-01-31" then Except.ok d20220131
    else Except.error "ValueError: strptime"

/-- C5 counterexample: a concrete tier_1 run with an empty environment —
no date range is resolvable from any source — completes with Except.ok
(using the hard-coded defaults) instead of failing. -/
theorem tier1_no_dates_proceeds :
    tier1_materialize noEnv noVars strptimeDefaults allFailHttp noParse =
      Except.ok ⟨[], 0⟩ := by
  have hm : generate_month_range d20220101 d20220131 = [(2022, 1)] := by
    rw [generate_month_range_eq]
    decide
  have hs : strptimeDefaults "2022-01-01" = Except.ok d20220101 := by
    simp [strptimeDefaults]
  have he : strptimeDefaults "2022-01-31" = Except.ok d20220131 := by
    simp [strptimeDefaults]
  unfold tier1_materialize
  simp only [noEnv, Option.getD_none]
  rw [hs, he]
  dsimp only
  rw [hm]
  simp [tier1_collect, download_parquet_file, download_body, allFailHttp,
    noParse, dfEmpty]

theorem pyOr_truthy (a b : Option String) (h : strTruthy a = true) :
    pyOr a b = a := by
  unfold pyOr
  simp [h]

theorem py_collect_all_error (tt : String) (months : List (Nat × Nat))
    (fp : String → Except String DF) (h : ∀ u, ∃ m, fp u = Except.error m) :
    py_collect tt months fp = [] := by
  unfold py_collect
  rw [List.filterMap_eq_nil_iff]
  intro ym _
  obtain ⟨m, hm⟩ := h (trip_data_url tt ym.1 ym.2)
  rw [hm]

theorem tier1_collect_all_empty (tts : List String) (months : List (Nat × Nat))
    (f : String → DF) (h : ∀ u, dfEmpty (f u) = true) :
    tier1_collect tts months f = [] := by
  unfold tier1_collect
  rw [List.flatMap_eq_nil_iff]
  intro tt _
  rw [List.filterMap_eq_nil_iff]
  intro ym _
  dsimp only
  rw [h (trip_data_url tt ym.1 ym.2)]
  simp

/-- C3 amended: when every partition fetch fails, both variants complete
without raising and return a zero-row table; the python variant's empty
table carries the `taxi_type` provenance column, but the tier_1
variant's empty table carries NO columns at all. -/
theorem all_fetch_fail_schema
    (sv ev : String) (hsv : sv ≠ "") (hev : ev ≠ "")
    (env kw : String → Option String) (parse : String → Except String DateTime)
    (fp : String → Except String DF) (sdt edt : DateTime)
    (hps : parse (cleanDateStr sv) = Except.ok sdt)
    (hpe : parse (cleanDateStr ev) = Except.ok edt)
    (hfp : ∀ u, ∃ m, fp u = Except.error m)
    (env2 : String → Option String) (varsT : String → Except String (List String))
    (strp : String → Except String Date) (http : String → HttpOutcome)
    (pp : String → Except String DF) (s e : Date) (tts : List String)
    (hv : (match env2 "BRUIN_VARS" with
            | some v => varsT v
            | none => Except.ok ["yellow"]) = Except.ok tts)
    (hs2 : strp ((env2 "BRUIN_START_DATE").getD "2022-01-01") = Except.ok s)
    (he2 : strp ((env2 "BRUIN_END_DATE").getD "2022-01-31") = Except.ok e)
    (hdl : ∀ u, download_parquet_file http pp u = ⟨[], 0⟩) :
    python_materialize (some sv) (some ev) env kw parse fp =
      Except.ok ⟨["taxi_type"], 0⟩ ∧
    tier1_materialize env2 varsT strp http pp = Except.ok ⟨[], 0⟩ := by
  constructor
  · have htr : strTruthy (some sv) = true := by simp [strTruthy, hsv]
    have htr2 : strTruthy (some ev) = true := by simp [strTruthy, hev]
    have hres : resolve_start (some sv) env kw = some sv := by
      unfold resolve_start
      rw [pyOr_truthy _ _ htr, pyOr_truthy _ _ htr, pyOr_truthy _ _ htr,
        pyOr_truthy _ _ htr]
    have hres2 : resolve_end (some ev) env kw = some ev := by
      unfold resolve_end
      rw [pyOr_truthy _ _ htr2, pyOr_truthy _ _ htr2, pyOr_truthy _ _ htr2,
        pyOr_truthy _ _ htr2]
    unfold python_materialize
    rw [hres, hres2]
    dsimp only
    rw [if_neg (by simp [hsv, hev])]
    rw [hps, hpe]
    dsimp only
    rw [py_collect_all_error _ _ _ hfp]
    rfl
  · unfold tier1_materialize
    rw [hv]
    dsimp only
    rw [hs2, he2]
    dsimp only
    have hall : ∀ u, dfEmpty ((fun url => download_parquet_file http pp url) u) = true := by
      intro u
      dsimp only
      rw [hdl u]
      rfl
    rw [tier1_collect_all_empty _ _ _ hall]
    rfl

/-- Witness for the amended C3 at concrete all-failing oracles. -/
theorem all_fetch_fail_schema_witness :
    python_materialize (some "2022-01-01") (some "2022-03-15") noEnv noEnv
      (fun _ => Except.ok dtJan15mid) noParse = Except.ok ⟨["taxi_type"], 0⟩ ∧
    tier1_materialize noEnv noVars constStrptime allFailHttp noParse =
      Except.ok ⟨[], 0⟩ :=
  all_fetch_fail_schema "2022-01-01" "2022-03-15" (by decide) (by decide)
    noEnv noEnv (fun _ => Except.ok dtJan15mid) noParse dtJan15mid dtJan15mid
    rfl rfl (fun _ => ⟨"parse error", rfl⟩)
    noEnv noVars constStrptime allFailHttp noParse d20220101 d20220101 ["yellow"]
    rfl rfl rfl (fun _ => rfl)

/-- An environment that supplies the BRUIN date range explicitly. -/
def envDefaults : String → Option String :=
  fun k =>
    if k = "BRUIN_START_DATE" then some "2022-01-01"
    else if k = "BRUIN_END_DATE" then some "2022-01-31"
    else none

/-- C3 counterexample: a concrete tier_1 run in which every fetch fails
returns successfully, but its empty table has NO columns at all — the
`taxi_type` provenance column the claim promises is absent. -/
theorem tier1_all_fail_schema_empty :
    tier1_materialize envDefaults noVars strptimeDefaults allFailHttp noParse =
      Except.ok ⟨[], 0⟩ ∧
    "taxi_type" ∉ (DF.mk [] 0).cols := by
  constructor
  · have h1 : envDefaults "BRUIN_START_DATE" = some "2022-01-01" := by
      simp [envDefaults]
    have h2 : envDefaults "BRUIN_END_DATE" = some "2022-01-31" := by
      simp [envDefaults]
    have h3 : envDefaults "BRUIN_VARS" = none := by
      simp [envDefaults]
    have hs : strptimeDefaults "2022-01-01" = Except.ok d20220101 := by
      simp [strptimeDefaults]
    have he : strptimeDefaults "2022-01-31" = Except.ok d20220131 := by
      simp [strptimeDefaults]
    unfold tier1_materialize
    rw [h1, h2, h3]
    simp only [Option.getD_some]
    rw [hs, he]
    dsimp only
    have hall : ∀ u,
        dfEmpty ((fun url => download_parquet_file allFailHttp noParse url) u) = true :=
      fun _ => rfl
    rw [tier1_collect_all_empty _ _ _ hall]
    rfl
  · simp

/-- GeoJSON feature properties as `compute_centroids` reads them.  A
missing "properties" member behaves as the empty dict, i.e. every lookup
returns None — represented by the all-none record. -/
structure ZoneProps where
  locationID : Option Int
  objectID : Option Int
  borough : Option String
  zone : Option String
  service_zone : Option String
deriving DecidableEq, Repr

/-- A GeoJSON feature: properties plus an optional geometry.  `none`
covers a missing, null or otherwise falsy "geometry" member (the `if not
geom: continue` test).  The geometry payload type is abstract; shapely's
centroid is the `centroid` oracle. -/
structure ZoneFeature (G : Type) where
  props : ZoneProps
  geometry : Option G

/-- One output row of `compute_centroids`. -/
structure ZoneRow where
  location_id : Int
  borough : Option String
  zone : Option String
  service_zone : Option String
  centroid_lat : Int
  centroid_lon : Int
deriving DecidableEq, Repr

/-- Python `a or b` on optional integers: None and 0 are falsy. -/
def pyOrInt (a b : Option Int) : Option Int :=
  match a with
  | some n => if n ≠ 0 then some n else b
  | none => b

/-- `int(props.get("LocationID") or props.get("OBJECTID") or 0)`. -/
def locationIdOf (p : ZoneProps) : Int :=
  (pyOrInt p.locationID (pyOrInt p.objectID (some 0))).getD 0

/-- `compute_centroids`: skip features without geometry, and build one
row per remaining feature.  `centroid g` is the shapely centroid as an
(x, y) pair; the row stores y as latitude and x as longitude. -/
def compute_centroids {G : Type} (centroid : G → Int × Int)
    (features : List (ZoneFeature G)) : List ZoneRow :=
  features.filterMap fun f =>
    match f.geometry with
    | none => none
    | some g =>
      some { location_id := locationIdOf f.props
             borough := f.props.borough
             zone := f.props.zone
             service_zone := f.props.service_zone
             centroid_lat := (centroid g).2
             centroid_lon := (centroid g).1 }

/-- A feature with geometry but no LocationID and no OBJECTID. -/
def noIdFeature : ZoneFeature Unit :=
  ⟨⟨none, none, none, none, none⟩, some ()⟩

/-- C10: `compute_centroids` keeps exactly the features whose geometry
is present; a retained feature's `location_id` comes from LocationID
when truthy, else OBJECTID when truthy, else 0; consequently the output
`location_id` values need not be unique — two geometry-bearing features
without identifiers both produce 0. -/
theorem compute_centroids_spec {G : Type} (centroid : G → Int × Int)
    (features : List (ZoneFeature G)) :
    compute_centroids centroid features =
      compute_centroids centroid (features.filter fun f => f.geometry.isSome) ∧
    (∀ p g, compute_centroids centroid [⟨p, some g⟩] =
      [⟨locationIdOf p, p.borough, p.zone, p.service_zone,
        (centroid g).2, (centroid g).1⟩]) ∧
    (∀ p, compute_centroids centroid [⟨p, none⟩] = []) ∧
    (∀ (p : ZoneProps) (l : Int), p.locationID = some l → l ≠ 0 →
      locationIdOf p = l) ∧
    (∀ (p : ZoneProps) (o : Int), (p.locationID = none ∨ p.locationID = some 0) →
      p.objectID = some o → o ≠ 0 → locationIdOf p = o) ∧
    (∀ p : ZoneProps, (p.locationID = none ∨ p.locationID = some 0) →
      (p.objectID = none ∨ p.objectID = some 0) → locationIdOf p = 0) ∧
    ¬ ((compute_centroids (fun _ : Unit => (0, 0))
        [noIdFeature, noIdFeature]).map ZoneRow.location_id).Nodup := by
  refine ⟨?_, ?_, ?_, ?_, ?_, ?_, ?_⟩
  · induction features with
    | nil => rfl
    | cons f fs ih =>
      cases hg : f.geometry with
      | none =>
        simp [compute_centroids, List.filter_cons, hg] at ih ⊢
        exact ih
      | some g =>
        simp [compute_centroids, List.filter_cons, hg] at ih ⊢
        exact ih
  · intro p g
    rfl
  · intro p
    rfl
  · intro p l hl hne
    unfold locationIdOf pyOrInt
    rw [hl]
    simp [hne]
  · intro p o hl ho hne
    unfold locationIdOf pyOrInt
    rcases hl with h | h <;> rw [h, ho] <;> simp [hne]
  · intro p hl ho
    unfold locationIdOf pyOrInt
    rcases hl with h | h <;> rcases ho with h2 | h2 <;> rw [h, h2] <;> simp
  · decide

/-- Witness for C10 at concrete properties and a concrete centroid. -/
theorem compute_centroids_spec_witness :
    locationIdOf ⟨some 7, some 3, none, none, none⟩ = 7 ∧
    locationIdOf ⟨some 0, some 3, none, none, none⟩ = 3 ∧
    locationIdOf ⟨none, some 0, none, none, none⟩ = 0 ∧
    compute_centroids (fun _ : Unit => (3, 4))
      [⟨⟨some 7, some 3, none, none, none⟩, some ()⟩] =
      [⟨locationIdOf ⟨some 7, some 3, none, none, none⟩, none, none, none, 4, 3⟩] ∧
    compute_centroids (fun _ : Unit => (3, 4))
      [⟨⟨some 7, some 3, none, none, none⟩, none⟩] = [] := by
  have h := compute_centroids_spec (fun _ : Unit => (3, 4)) ([] : List (ZoneFeature Unit))
  exact ⟨h.2.2.2.1 ⟨some 7, some 3, none, none, none⟩ 7 rfl (by decide),
    h.2.2.2.2.1 ⟨some 0, some 3, none, none, none⟩ 3 (Or.inr rfl) rfl (by decide),
    h.2.2.2.2.2.1 ⟨none, some 0, none, none, none⟩ (Or.inl rfl) (Or.inr rfl),
    h.2.1 ⟨some 7, some 3, none, none, none⟩ (),
    h.2.2.1 ⟨some 7, some 3, none, none, none⟩⟩
